import Mathlib

/-!
Shallow embedding of the dispatch-and-retry layer of the travel-agent demo
repository: the `aci` SDK error taxonomy and retry wrapper
(`aci/_exceptions.py`, `aci/resource/_base.py`, `aci/resource/functions.py`),
and the application glue (`tools.py`, `app.py`, `task.py`).
-/

set_option autoImplicit false
set_option linter.unusedVariables false

namespace TravelSpec

universe u

variable {α : Type u}

/-- The exception classes of `aci/_exceptions.py` that `_handle_response`
raises, one per HTTP status class (401, 403, 404, 400, 429, 5xx, other). -/
inductive ACIError
  | authenticationError
  | permissionError
  | notFoundError
  | validationError
  | rateLimitError
  | serverError
  | unknownError
  deriving DecidableEq, Repr

/-- An exception that an outbound call wrapped by `@retry(**retry_config)` can
raise: an `ACIError` from `_handle_response`, or an `httpx` transport error
(`httpx.TimeoutException`, `httpx.NetworkError`). -/
inductive ExecError
  | aci (e : ACIError)
  | httpxTimeout
  | httpxNetwork
  deriving DecidableEq, Repr

/-- The retry predicate of `retry_config` in `aci/resource/_base.py`:
`retry_if_exception_type((ServerError, RateLimitError, UnknownError,
httpx.TimeoutException, httpx.NetworkError))`.  Exactly these exception
types are retried; every other exception is re-raised at once. -/
def retryConfigRetryable : ExecError → Bool
  | .aci .serverError => true
  | .aci .rateLimitError => true
  | .aci .unknownError => true
  | .httpxTimeout => true
  | .httpxNetwork => true
  | _ => false

/-- The permanent (client-side, 4xx-equivalent other than rate limit) error
kinds: authentication, permission, not-found, validation. -/
def permanentKind (e : ExecError) : Prop :=
  e = .aci .authenticationError ∨ e = .aci .permissionError ∨
  e = .aci .notFoundError ∨ e = .aci .validationError

instance (e : ExecError) : Decidable (permanentKind e) := by
  unfold permanentKind; infer_instance

/-- The retry loop of tenacity's `@retry(**retry_config)` decorator, as
configured in `aci/resource/_base.py`: `stop = stop_after_attempt(n)` (stop
once `attempt_number >= n`), `retry = retry_if_exception_type(...)`,
`reraise = True` (after stopping, the last exception is re-raised unchanged).

`call i` is the outcome of the i-th attempt of the wrapped call (attempts
are numbered from 1, as tenacity does); `wait i` is the backoff delay the
configured wait strategy would produce after attempt `i`.  `remaining` is the
number of retries still allowed by the stop condition, i.e.
`maxAttempts - attempt`; when an attempt fails retryably and `remaining = 0`,
the stop condition `attempt_number >= maxAttempts` has been reached and the
exception is re-raised.

Returns the number of attempts made, the list of backoff delays actually
slept, and the final outcome. -/
def retryLoop (call : Nat → Except ExecError α) (wait : Nat → Nat) :
    Nat → Nat → Nat × List Nat × Except ExecError α
  | attempt, remaining =>
    match call attempt with
    | .ok v => (attempt, [], .ok v)
    | .error e =>
      if retryConfigRetryable e then
        match remaining with
        | 0 => (attempt, [], .error e)
        | r + 1 =>
          let rest := retryLoop call wait (attempt + 1) r
          (rest.1, wait attempt :: rest.2.1, rest.2.2)
      else (attempt, [], .error e)

/-- A call wrapped by `@retry(**retry_config)` (e.g.
`FunctionsResource.execute` in `aci/resource/functions.py`): attempts start
at 1 and `stop_after_attempt maxAttempts` allows `maxAttempts - 1` retries. -/
def executeWithRetry (call : Nat → Except ExecError α) (wait : Nat → Nat)
    (maxAttempts : Nat) : Nat × List Nat × Except ExecError α :=
  retryLoop call wait 1 (maxAttempts - 1)

theorem permanentKind_not_retryable {e : ExecError} (h : permanentKind e) :
    retryConfigRetryable e = false := by
  rcases h with h | h | h | h <;> subst h <;> rfl

/-- C1: a wrapped call whose first attempt raises a permanent error kind
(authentication, permission, not-found, or validation) makes exactly one
attempt, sleeps no backoff delay, and propagates that error unchanged. -/
theorem retry_permanent_error_single_attempt (call : Nat → Except ExecError α)
    (wait : Nat → Nat) (maxAttempts : Nat) (e : ExecError)
    (hperm : permanentKind e) (hcall : call 1 = .error e) :
    executeWithRetry call wait maxAttempts = (1, [], .error e) := by
  unfold executeWithRetry retryLoop
  rw [hcall]
  simp [permanentKind_not_retryable hperm]

/-- Concrete run of C1: a call that always raises `AuthenticationError` under
`max_attempts = 5` makes exactly one attempt with no backoff delay. -/
theorem retry_permanent_error_single_attempt_witness :
    executeWithRetry
      (fun _ => (.error (.aci .authenticationError) : Except ExecError Nat))
      (fun i => 2 ^ i) 5 = (1, [], .error (.aci .authenticationError)) :=
  retry_permanent_error_single_attempt _ _ 5 (.aci .authenticationError)
    (Or.inl rfl) rfl

theorem retryLoop_ok (call : Nat → Except ExecError α) (wait : Nat → Nat)
    (a r : Nat) (v : α) (h : call a = .ok v) :
    retryLoop call wait a r = (a, [], .ok v) := by
  conv_lhs => rw [retryLoop]
  rw [h]

theorem retryLoop_error_stop (call : Nat → Except ExecError α) (wait : Nat → Nat)
    (a r : Nat) (e : ExecError) (h : call a = .error e)
    (hnr : retryConfigRetryable e = false) :
    retryLoop call wait a r = (a, [], .error e) := by
  conv_lhs => rw [retryLoop]
  rw [h]
  simp [hnr]

theorem retryLoop_error_exhausted (call : Nat → Except ExecError α)
    (wait : Nat → Nat) (a : Nat) (e : ExecError) (h : call a = .error e) :
    retryLoop call wait a 0 = (a, [], .error e) := by
  conv_lhs => rw [retryLoop]
  rw [h]
  cases hr : retryConfigRetryable e <;> simp

theorem retryLoop_error_retry (call : Nat → Except ExecError α)
    (wait : Nat → Nat) (a r : Nat) (e : ExecError) (h : call a = .error e)
    (hr : retryConfigRetryable e = true) :
    retryLoop call wait a (r + 1) =
      ((retryLoop call wait (a + 1) r).1,
       wait a :: (retryLoop call wait (a + 1) r).2.1,
       (retryLoop call wait (a + 1) r).2.2) := by
  conv_lhs => rw [retryLoop]
  rw [h]
  simp [hr]

theorem retryLoop_attempts_le (call : Nat → Except ExecError α)
    (wait : Nat → Nat) : ∀ r a, (retryLoop call wait a r).1 ≤ a + r := by
  intro r
  induction r with
  | zero =>
    intro a
    rcases hc : call a with e | v
    · rw [retryLoop_error_exhausted call wait a e hc]; simp
    · rw [retryLoop_ok call wait a 0 v hc]; simp
  | succ r ih =>
    intro a
    rcases hc : call a with e | v
    · cases hr : retryConfigRetryable e with
      | false => rw [retryLoop_error_stop call wait a _ e hc hr]; simp
      | true =>
        rw [retryLoop_error_retry call wait a r e hc hr]
        have := ih (a + 1)
        simp only []
        omega
    · rw [retryLoop_ok call wait a _ v hc]; simp

theorem retryLoop_succeeds_at (call : Nat → Except ExecError α)
    (wait : Nat → Nat) (s : Nat) (v : α) (hs : call s = .ok v) :
    ∀ r a, a ≤ s → s ≤ a + r →
    (∀ i, a ≤ i → i < s → ∃ e, call i = .error e ∧ retryConfigRetryable e = true) →
    (retryLoop call wait a r).1 = s ∧ (retryLoop call wait a r).2.2 = .ok v := by
  intro r
  induction r with
  | zero =>
    intro a h1 h2 _
    have : a = s := by omega
    subst this
    rw [retryLoop_ok call wait a 0 v hs]
    exact ⟨rfl, rfl⟩
  | succ r ih =>
    intro a h1 h2 hfail
    rcases Nat.eq_or_lt_of_le h1 with heq | hlt
    · subst heq
      rw [retryLoop_ok call wait a (r + 1) v hs]
      exact ⟨rfl, rfl⟩
    · obtain ⟨e, he, hre⟩ := hfail a le_rfl hlt
      rw [retryLoop_error_retry call wait a r e he hre]
      exact ih (a + 1) hlt (by omega) (fun i hi1 hi2 => hfail i (by omega) hi2)

theorem retryLoop_exhausts (call : Nat → Except ExecError α)
    (wait : Nat → Nat) : ∀ r a,
    (∀ i, a ≤ i → i ≤ a + r → ∃ e, call i = .error e ∧ retryConfigRetryable e = true) →
    ∃ e, call (a + r) = .error e ∧
      (retryLoop call wait a r).1 = a + r ∧
      (retryLoop call wait a r).2.2 = .error e := by
  intro r
  induction r with
  | zero =>
    intro a hfail
    obtain ⟨e, he, _⟩ := hfail a le_rfl le_rfl
    rw [retryLoop_error_exhausted call wait a e he]
    exact ⟨e, by simpa using he, by simp, rfl⟩
  | succ r ih =>
    intro a hfail
    obtain ⟨e, he, hre⟩ := hfail a le_rfl (by omega)
    obtain ⟨e2, he2, hres⟩ := ih (a + 1) (fun i hi1 hi2 => hfail i (by omega) (by omega))
    rw [retryLoop_error_retry call wait a r e he hre]
    refine ⟨e2, by convert he2 using 2; omega, ?_, ?_⟩
    · rw [hres.1]; omega
    · exact hres.2

/-- C2: for a wrapped call under `@retry(**retry_config)` with bound
`stop_after_attempt maxAttempts`: (i) if the call raises retryable errors on
attempts `1..k` with `k < maxAttempts` and succeeds on attempt `k+1`, exactly
`k+1` attempts are made and the result is the success payload; (ii) the
attempt count never exceeds `maxAttempts`; (iii) if every allowed attempt
raises a retryable error, the loop stops at attempt `maxAttempts` and
re-raises that last classified error unchanged. -/
theorem retry_transient_bounded (call : Nat → Except ExecError α)
    (wait : Nat → Nat) (maxAttempts : Nat) (hmax : 1 ≤ maxAttempts) :
    (∀ k v, k < maxAttempts →
      (∀ i, 1 ≤ i → i ≤ k → ∃ e, call i = .error e ∧ retryConfigRetryable e = true) →
      call (k + 1) = .ok v →
      (executeWithRetry call wait maxAttempts).1 = k + 1 ∧
      (executeWithRetry call wait maxAttempts).2.2 = .ok v)
    ∧ (executeWithRetry call wait maxAttempts).1 ≤ maxAttempts
    ∧ ((∀ i, 1 ≤ i → i ≤ maxAttempts → ∃ e, call i = .error e ∧ retryConfigRetryable e = true) →
      ∃ e, call maxAttempts = .error e ∧
        (executeWithRetry call wait maxAttempts).1 = maxAttempts ∧
        (executeWithRetry call wait maxAttempts).2.2 = .error e) := by
  refine ⟨?_, ?_, ?_⟩
  · intro k v hk hfail hsucc
    exact retryLoop_succeeds_at call wait (k + 1) v hsucc (maxAttempts - 1) 1
      (by omega) (by omega) (fun i hi1 hi2 => hfail i hi1 (by omega))
  · have := retryLoop_attempts_le call wait (maxAttempts - 1) 1
    unfold executeWithRetry
    omega
  · intro hfail
    have h := retryLoop_exhausts call wait (maxAttempts - 1) 1
      (fun i hi1 hi2 => hfail i hi1 (by omega))
    obtain ⟨e, he, h1, h2⟩ := h
    have hm : 1 + (maxAttempts - 1) = maxAttempts := by omega
    rw [hm] at he h1
    exact ⟨e, he, h1, h2⟩

/-- A call that raises `RateLimitError` on attempts 1 and 2 and succeeds on
attempt 3 (the concrete scenario in the spec, with `max_attempts = 5`). -/
def rateLimitedTwiceCall : Nat → Except ExecError Nat :=
  fun i => if i ≤ 2 then .error (.aci .rateLimitError) else .ok 42

/-- Concrete run of C2: the rate-limited-twice call under `max_attempts = 5`
makes exactly 3 attempts and returns the success payload. -/
theorem retry_transient_bounded_witness :
    (executeWithRetry rateLimitedTwiceCall (fun i => 2 ^ i) 5).1 = 3 ∧
    (executeWithRetry rateLimitedTwiceCall (fun i => 2 ^ i) 5).2.2 = .ok 42 ∧
    (executeWithRetry rateLimitedTwiceCall (fun i => 2 ^ i) 5).1 ≤ 5 := by
  have h := retry_transient_bounded rateLimitedTwiceCall (fun i => 2 ^ i) 5
    (by decide)
  have h1 := h.1 2 42 (by decide)
    (fun i hi1 hi2 => ⟨.aci .rateLimitError, by simp [rateLimitedTwiceCall, hi2], rfl⟩)
    rfl
  exact ⟨h1.1, h1.2, h.2.1⟩

/-- Model of an `httpx.Response` as seen by `APIResource._handle_response`:
the status code, the body text (`response.text`; `response.content` is empty
iff `text` is empty), and the result of `response.json()` — `some s` (the
`str()` rendering of the parsed value) when the body parses as JSON, `none`
when parsing raises.  JSON parsing is performed by the external HTTP/JSON
library, so its result is part of the modelled response value. -/
structure HttpResponse where
  status_code : Nat
  text : String
  jsonStr : Option String
  deriving DecidableEq, Repr

/-- `httpx.Response.is_success`: true exactly for 2xx status codes;
`raise_for_status()` raises `HTTPStatusError` for every other status. -/
def isSuccessStatus (status : Nat) : Bool :=
  200 ≤ status && status < 300

/-- The payload `_get_response_data` returns for a successful response:
`{}` when the body is empty, the parsed JSON value when the body parses,
otherwise the fallback `response.text`. -/
inductive ResponseData
  | jsonData (s : String)
  | textData (s : String)
  | emptyDict
  deriving DecidableEq, Repr

/-- `APIResource._get_response_data`:
`response.json() if response.content else {}`, falling back to
`response.text` when JSON parsing raises. -/
def getResponseData (r : HttpResponse) : ResponseData :=
  if r.text = "" then .emptyDict
  else
    match r.jsonStr with
    | some s => .jsonData s
    | none => .textData r.text

/-- The string `str(e)` of the `httpx.HTTPStatusError` raised by
`raise_for_status()`; httpx builds it from the status code and URL, never
from the response body. -/
def httpStatusErrorStr (status : Nat) : String :=
  "HTTP status error for status code " ++ toString status

/-- `APIResource._get_error_message`: `str(response.json())` when the body
parses as JSON, otherwise `str(error)` from the `HTTPStatusError`. -/
def getErrorMessage (r : HttpResponse) : String :=
  match r.jsonStr with
  | some s => s
  | none => httpStatusErrorStr r.status_code

/-- `APIResource._handle_response`: returns the parsed data on success,
otherwise raises the `ACIError` selected by the status-code chain
(401, 403, 404, 400, 429, 5xx, other), carrying `_get_error_message`. -/
def handleResponse (r : HttpResponse) : Except (ACIError × String) ResponseData :=
  if isSuccessStatus r.status_code then .ok (getResponseData r)
  else
    let msg := getErrorMessage r
    if r.status_code = 401 then .error (.authenticationError, msg)
    else if r.status_code = 403 then .error (.permissionError, msg)
    else if r.status_code = 404 then .error (.notFoundError, msg)
    else if r.status_code = 400 then .error (.validationError, msg)
    else if r.status_code = 429 then .error (.rateLimitError, msg)
    else if 500 ≤ r.status_code ∧ r.status_code < 600 then .error (.serverError, msg)
    else .error (.unknownError, msg)

/-- The error kind `_handle_response` raises, if any. -/
def raisedKind (r : HttpResponse) : Option ACIError :=
  match handleResponse r with
  | .ok _ => none
  | .error ke => some ke.1

/-- The error message `_handle_response` attaches, if any. -/
def raisedMessage (r : HttpResponse) : Option String :=
  match handleResponse r with
  | .ok _ => none
  | .error ke => some ke.2

theorem handleResponse_success (r : HttpResponse)
    (h : isSuccessStatus r.status_code = true) :
    handleResponse r = .ok (getResponseData r) := by
  simp [handleResponse, h]

theorem handleResponse_401 (r : HttpResponse) (h : r.status_code = 401) :
    handleResponse r = .error (.authenticationError, getErrorMessage r) := by
  simp [handleResponse, isSuccessStatus, h]

theorem handleResponse_403 (r : HttpResponse) (h : r.status_code = 403) :
    handleResponse r = .error (.permissionError, getErrorMessage r) := by
  simp [handleResponse, isSuccessStatus, h]

theorem handleResponse_404 (r : HttpResponse) (h : r.status_code = 404) :
    handleResponse r = .error (.notFoundError, getErrorMessage r) := by
  simp [handleResponse, isSuccessStatus, h]

theorem handleResponse_400 (r : HttpResponse) (h : r.status_code = 400) :
    handleResponse r = .error (.validationError, getErrorMessage r) := by
  simp [handleResponse, isSuccessStatus, h]

theorem handleResponse_429 (r : HttpResponse) (h : r.status_code = 429) :
    handleResponse r = .error (.rateLimitError, getErrorMessage r) := by
  simp [handleResponse, isSuccessStatus, h]

theorem handleResponse_5xx (r : HttpResponse) (h5 : 500 ≤ r.status_code)
    (h6 : r.status_code < 600) :
    handleResponse r = .error (.serverError, getErrorMessage r) := by
  have hs : isSuccessStatus r.status_code = false := by
    simp [isSuccessStatus]; omega
  have h1 : r.status_code ≠ 401 := by omega
  have h2 : r.status_code ≠ 403 := by omega
  have h3 : r.status_code ≠ 404 := by omega
  have h4 : r.status_code ≠ 400 := by omega
  have h7 : r.status_code ≠ 429 := by omega
  simp [handleResponse, hs, h1, h2, h3, h4, h7, h5, h6]

theorem handleResponse_other (r : HttpResponse)
    (hs : isSuccessStatus r.status_code = false)
    (h1 : r.status_code ≠ 401) (h2 : r.status_code ≠ 403)
    (h3 : r.status_code ≠ 404) (h4 : r.status_code ≠ 400)
    (h7 : r.status_code ≠ 429)
    (h5 : ¬(500 ≤ r.status_code ∧ r.status_code < 600)) :
    handleResponse r = .error (.unknownError, getErrorMessage r) := by
  simp [handleResponse, hs, h1, h2, h3, h4, h7, h5]

/-- C3: `_handle_response` maps every response to exactly one outcome:
success statuses (2xx) return the parsed payload without raising; 401 raises
the authentication kind, 403 permission, 404 not-found, 400 validation,
429 rate-limit, 5xx server-error, and every other non-success status the
unknown kind. -/
theorem handle_response_taxonomy (r : HttpResponse) :
    (isSuccessStatus r.status_code = true →
      handleResponse r = .ok (getResponseData r) ∧ raisedKind r = none)
    ∧ (r.status_code = 401 → raisedKind r = some .authenticationError)
    ∧ (r.status_code = 403 → raisedKind r = some .permissionError)
    ∧ (r.status_code = 404 → raisedKind r = some .notFoundError)
    ∧ (r.status_code = 400 → raisedKind r = some .validationError)
    ∧ (r.status_code = 429 → raisedKind r = some .rateLimitError)
    ∧ (500 ≤ r.status_code → r.status_code < 600 →
        raisedKind r = some .serverError)
    ∧ (isSuccessStatus r.status_code = false →
        r.status_code ≠ 401 → r.status_code ≠ 403 → r.status_code ≠ 404 →
        r.status_code ≠ 400 → r.status_code ≠ 429 →
        ¬(500 ≤ r.status_code ∧ r.status_code < 600) →
        raisedKind r = some .unknownError) := by
  refine ⟨?_, ?_, ?_, ?_, ?_, ?_, ?_, ?_⟩
  · intro h
    rw [handleResponse_success r h]
    exact ⟨rfl, by simp [raisedKind, handleResponse_success r h]⟩
  · intro h; simp [raisedKind, handleResponse_401 r h]
  · intro h; simp [raisedKind, handleResponse_403 r h]
  · intro h; simp [raisedKind, handleResponse_404 r h]
  · intro h; simp [raisedKind, handleResponse_400 r h]
  · intro h; simp [raisedKind, handleResponse_429 r h]
  · intro h5 h6; simp [raisedKind, handleResponse_5xx r h5 h6]
  · intro hs h1 h2 h3 h4 h7 h5
    simp [raisedKind, handleResponse_other r hs h1 h2 h3 h4 h7 h5]

/-- A concrete 404 response. -/
def sampleResponse404 : HttpResponse :=
  ⟨404, "not found", none⟩

/-- A concrete 200 response with a JSON body. -/
def sampleResponse200 : HttpResponse :=
  ⟨200, "\x7b\x7d", some "\x7b\x7d"⟩

/-- Concrete runs of C3: a 404 response raises the not-found kind, and a 200
response returns its parsed payload without raising. -/
theorem handle_response_taxonomy_witness :
    raisedKind sampleResponse404 = some .notFoundError ∧
    handleResponse sampleResponse200 = .ok (getResponseData sampleResponse200) := by
  refine ⟨(handle_response_taxonomy sampleResponse404).2.2.2.1 rfl,
    ((handle_response_taxonomy sampleResponse200).1 (by decide)).1⟩

/-- The error kind of `_handle_response` as a function of the status code
alone (the status-code chain of `_handle_response` inspects nothing else). -/
def statusKind (c : Nat) : Option ACIError :=
  if isSuccessStatus c then none
  else if c = 401 then some .authenticationError
  else if c = 403 then some .permissionError
  else if c = 404 then some .notFoundError
  else if c = 400 then some .validationError
  else if c = 429 then some .rateLimitError
  else if 500 ≤ c ∧ c < 600 then some .serverError
  else some .unknownError

theorem raisedKind_eq_statusKind (r : HttpResponse) :
    raisedKind r = statusKind r.status_code := by
  unfold raisedKind handleResponse statusKind
  split_ifs <;> rfl

theorem raisedMessage_of_failure (r : HttpResponse)
    (hfail : isSuccessStatus r.status_code = false) :
    raisedMessage r = some (getErrorMessage r) := by
  unfold raisedMessage handleResponse
  simp only [hfail]
  split_ifs <;> first | rfl | exact absurd rfl (by assumption) | exact (by assumption : False).elim

/-- A 500 response whose JSON body is the string "upstream secret A". -/
def responseBodyA : HttpResponse :=
  ⟨500, "\x22upstream secret A\x22", some "upstream secret A"⟩

/-- A 500 response identical to `responseBodyA` except for its body. -/
def responseBodyB : HttpResponse :=
  ⟨500, "\x22upstream secret B\x22", some "upstream secret B"⟩

/-- C6 counterexample: two failed responses with the same status code that
differ only in the upstream response body map to the same error kind but to
different user-facing error messages, and the message is exactly the
stringified upstream body — `_get_error_message` returns
`str(response.json())`. -/
theorem failure_message_embeds_body :
    responseBodyA.status_code = responseBodyB.status_code ∧
    raisedKind responseBodyA = raisedKind responseBodyB ∧
    raisedMessage responseBodyA ≠ raisedMessage responseBodyB ∧
    raisedMessage responseBodyA = some "upstream secret A" := by
  decide

/-- C6 amended: the error kind attached to a failed response is generic —
a function of the status code alone, unaffected by the body — but the
failure message embeds the stringified upstream response JSON whenever the
body parses as JSON, so runs differing only in the upstream body can produce
different user-facing failure messages. -/
theorem failure_kind_generic_message_embeds_body (r1 r2 : HttpResponse)
    (hstat : r1.status_code = r2.status_code) :
    raisedKind r1 = raisedKind r2 ∧
    (∀ s, r1.jsonStr = some s → isSuccessStatus r1.status_code = false →
      raisedMessage r1 = some s) := by
  constructor
  · rw [raisedKind_eq_statusKind, raisedKind_eq_statusKind, hstat]
  · intro s hjson hfail
    rw [raisedMessage_of_failure r1 hfail]
    simp [getErrorMessage, hjson]

/-- Concrete run of the amended C6: the two 500 responses above share an
error kind, and the message of the first is its upstream body string. -/
theorem failure_kind_generic_message_embeds_body_witness :
    raisedKind responseBodyA = raisedKind responseBodyB ∧
    raisedMessage responseBodyA = some "upstream secret A" :=
  ⟨(failure_kind_generic_message_embeds_body responseBodyA responseBodyB rfl).1,
   (failure_kind_generic_message_embeds_body responseBodyA responseBodyB rfl).2
     "upstream secret A" rfl (by decide)⟩

/-- Python truthiness of an optional string argument, as tested by the
`if not x` checks in `hotel_search_tool`: `None` and the empty string are
falsy, every other string is truthy. -/
def pyFalsy : Option String → Bool
  | none => true
  | some s => s == ""

/-- The required fields of the hotel capability, in the order in which
`hotel_search_tool` checks them. -/
def hotelRequiredFields : List String :=
  ["query", "check_in_date", "check_out_date", "adults"]

/-- The candidate argument mapping passed to `hotel_search_tool`
(`query`, `check_in_date`, `check_out_date`, `adults`); `none` models a
Python `None` argument. -/
structure HotelArgs where
  query : Option String
  check_in_date : Option String
  check_out_date : Option String
  adults : Option String
  deriving DecidableEq, Repr

/-- Lookup of a required field name in the candidate arguments. -/
def hotelFieldValue (a : HotelArgs) : String → Option String
  | "query" => a.query
  | "check_in_date" => a.check_in_date
  | "check_out_date" => a.check_out_date
  | "adults" => a.adults
  | _ => none

/-- The `missing` list built at the top of `hotel_search_tool`: four
sequential `if not <field>: missing.append(<name>)` statements in source
order. -/
def hotelMissing (a : HotelArgs) : List String :=
  (if pyFalsy a.query then ["query"] else []) ++
  (if pyFalsy a.check_in_date then ["check_in_date"] else []) ++
  (if pyFalsy a.check_out_date then ["check_out_date"] else []) ++
  (if pyFalsy a.adults then ["adults"] else [])

/-- C4: the missing-field list reported by `hotel_search_tool` is exactly
the required fields whose value is null or empty, it has no duplicates, and
it is a sublist of (hence ordered as) the declared field order
`query, check_in_date, check_out_date, adults`; the computation is a total
function of the candidate input. -/
theorem hotel_missing_exact (a : HotelArgs) :
    hotelMissing a =
      hotelRequiredFields.filter (fun f => pyFalsy (hotelFieldValue a f)) ∧
    (hotelMissing a).Nodup ∧
    List.Sublist (hotelMissing a) hotelRequiredFields ∧
    (∀ f, f ∈ hotelMissing a ↔
      f ∈ hotelRequiredFields ∧ pyFalsy (hotelFieldValue a f) = true) := by
  obtain ⟨q, c1, c2, ad⟩ := a
  have hmain : hotelMissing ⟨q, c1, c2, ad⟩ =
      hotelRequiredFields.filter
        (fun f => pyFalsy (hotelFieldValue ⟨q, c1, c2, ad⟩ f)) := by
    simp only [hotelMissing, hotelRequiredFields, hotelFieldValue,
      List.filter_cons, List.filter_nil]
    cases pyFalsy q <;> cases pyFalsy c1 <;> cases pyFalsy c2 <;>
      cases pyFalsy ad <;> simp
  refine ⟨hmain, ?_, ?_, ?_⟩
  · rw [hmain]
    exact List.Nodup.filter _ (by decide)
  · rw [hmain]
    exact List.filter_sublist _
  · intro f
    rw [hmain, List.mem_filter]

/-- Concrete run of C4: with `check_in_date = None` and
`check_out_date = ""`, exactly those two fields are reported, in declared
order, with no duplicates. -/
theorem hotel_missing_exact_witness :
    hotelMissing ⟨some "Berlin", none, some "", some "2"⟩ =
      ["check_in_date", "check_out_date"] ∧
    (hotelMissing ⟨some "Berlin", none, some "", some "2"⟩).Nodup := by
  have h := hotel_missing_exact ⟨some "Berlin", none, some "", some "2"⟩
  exact ⟨by rw [h.1]; rfl, h.2.1⟩

/-- The params dict built in the else branch of `hotel_search_tool`
(`app.py`): a request to the SerpApi `google_hotels` engine.  In that branch
every argument is a non-empty string, so the `.getD ""` defaults used below
are never taken. -/
structure HotelQuery where
  engine : String
  q : String
  check_in_date : String
  check_out_date : String
  adults : String
  currency : String
  gl : String
  hl : String
  api_key : Option String
  deriving DecidableEq, Repr

/-- One entry of `results["ads"]`, with the keys the tool reads; the field
values are opaque payloads from the external search API. -/
structure HotelAd where
  name : String
  overall_rating : String
  price : String
  amenities : List String
  deriving DecidableEq, Repr

/-- The SerpApi result dict as consumed by the tool: the `ads` key may be
absent, in which case indexing it raises `KeyError`. -/
structure HotelSearchDict where
  ads : Option (List HotelAd)
  deriving DecidableEq, Repr

/-- A Python runtime error the glue code can raise. -/
inductive PyError
  | nameError (n : String)
  | keyError (k : String)
  deriving DecidableEq, Repr

/-- A value `hotel_search_tool` can return. -/
inductive HotelToolReturn
  | missingInfo (msg : String)
  | hotels (rows : List (String × String × String × List String))
  deriving DecidableEq, Repr

/-- `hotel_search_tool` (`app.py`): validate the four fields; when any is
missing return the missing-information message, otherwise build the params
dict, call the external search engine (`search` is the external SerpApi
collaborator, `envSerpApi` the `SERP_API` environment value) and shape
`results["ads"]`.  Returns the list of outbound search requests actually
sent together with the Python-level outcome. -/
def hotel_search_tool (a : HotelArgs) (envSerpApi : Option String)
    (search : HotelQuery → HotelSearchDict) :
    List HotelQuery × Except PyError HotelToolReturn :=
  let missing := hotelMissing a
  if missing ≠ [] then
    ([], .ok (.missingInfo
      ("Missing information: " ++ String.intercalate ", " missing)))
  else
    let params : HotelQuery :=
      { engine := "google_hotels"
        q := a.query.getD ""
        check_in_date := a.check_in_date.getD ""
        check_out_date := a.check_out_date.getD ""
        adults := a.adults.getD ""
        currency := "USD"
        gl := "us"
        hl := "en"
        api_key := envSerpApi }
    let results := search params
    match results.ads with
    | none => ([params], .error (.keyError "ads"))
    | some ads =>
      ([params], .ok (.hotels (ads.map
        (fun h => (h.name, h.overall_rating, h.price, h.amenities)))))

/-- C5: when at least one required field is missing, `hotel_search_tool`
makes no outbound search request at all and returns the
missing-information message. -/
theorem hotel_incomplete_makes_no_outbound_call (a : HotelArgs)
    (envSerpApi : Option String) (search : HotelQuery → HotelSearchDict)
    (h : hotelMissing a ≠ []) :
    (hotel_search_tool a envSerpApi search).1 = [] ∧
    (hotel_search_tool a envSerpApi search).2 =
      .ok (.missingInfo ("Missing information: " ++
        String.intercalate ", " (hotelMissing a))) := by
  unfold hotel_search_tool
  simp [h]

/-- Concrete run of C5: the spec scenario missing `check_out_date` and
`adults` sends no request and names exactly those fields. -/
theorem hotel_incomplete_makes_no_outbound_call_witness :
    (hotel_search_tool ⟨some "Berlin", some "2025-08-01", none, none⟩ none
      (fun _ => ⟨none⟩)).1 = [] ∧
    (hotel_search_tool ⟨some "Berlin", some "2025-08-01", none, none⟩ none
      (fun _ => ⟨none⟩)).2 =
      .ok (.missingInfo "Missing information: check_out_date, adults") := by
  have h := hotel_incomplete_makes_no_outbound_call
    ⟨some "Berlin", some "2025-08-01", none, none⟩ none (fun _ => ⟨none⟩)
    (by decide)
  exact ⟨h.1, by rw [h.2]; rfl⟩

/-- The params dict built in `flight_search_tool` for the SerpApi
`google_flights` engine. -/
structure FlightQuery where
  engine : String
  departure_id : String
  arrival_id : String
  outbound_date : String
  return_date : String
  currency : String
  hl : String
  api_key : String
  deriving DecidableEq, Repr

/-- `flight_search_tool` builds its params dict entirely from hard-coded
literals; the caller-supplied arguments appear nowhere in it. -/
def flight_params (query departure_id arrival_id outbound_date
    return_date : String) : FlightQuery :=
  { engine := "google_flights"
    departure_id := "PEK"
    arrival_id := "AUS"
    outbound_date := "2025-07-19"
    return_date := "2025-07-25"
    currency := "USD"
    hl := "en"
    api_key := "secret_api_key" }

/-- One flight of a best-flights group, with the keys the loop body reads
via `.get` (each may be absent). -/
structure FlightSegment where
  airline : Option String
  duration : Option String
  airplane : Option String
  travel_class : Option String
  deriving DecidableEq, Repr

/-- One entry of `best_flights`. -/
structure FlightGroup where
  flights : Option (List FlightSegment)
  deriving DecidableEq, Repr

/-- The SerpApi flight-search result dict as the loop would consume it. -/
structure FlightSearchDict where
  best_flights : Option (List FlightGroup)
  deriving DecidableEq, Repr

/-- The `(duration, airplane, airline_name, travel_class)` row appended for
one flight. -/
def segmentRow (f : FlightSegment) :
    Option String × Option String × Option String × Option String :=
  (f.duration, f.airplane, f.airline, f.travel_class)

/-- The names bound in the body of `flight_search_tool` when the parsing
loop is reached (its parameters and locals) together with the module-level
names of `app.py` (imports, agents, tasks, tools, crew, routes).  The name
`j` the loop iterates over is assigned nowhere in the repository. -/
def flightScopeNames : List String :=
  ["query", "departure_id", "arrival_id", "outbound_date", "return_date",
   "params", "search", "results", "flight_details",
   "os", "Agent", "Task", "Crew", "Process", "tool", "LLM", "load_dotenv",
   "datetime", "GoogleSearch", "Flask", "Response", "request", "jsonify",
   "CORS", "app", "llm", "flight_search_tool", "hotel_search_tool",
   "hotel_agent", "flight_agent", "summarizing_agent", "hotel_task",
   "flight_task", "summarizing_task", "manager_agent", "hierarchical_crew",
   "process"]

/-- The value the name `j` resolves to at the parsing loop of
`flight_search_tool`: no assignment to `j` exists in `tools.py` or
`app.py` (`"j" ∉ flightScopeNames`), so the name is unbound and evaluating
it raises `NameError`. -/
def jBinding : Option FlightSearchDict := none

/-- `flight_search_tool` (`app.py`/`tools.py`): builds the (hard-coded)
params dict, performs the outbound search, then runs
`for flight_group in j.get("best_flights"): ...` — the scrutinee is the
value of the unbound name `j`.  Returns the outbound requests made and the
Python-level outcome. -/
def flight_search_tool (query departure_id arrival_id outbound_date
    return_date : String) (search : FlightQuery → FlightSearchDict) :
    List FlightQuery ×
      Except PyError
        (List (Option String × Option String × Option String × Option String)) :=
  let params := flight_params query departure_id arrival_id outbound_date
    return_date
  let _results := search params
  match jBinding with
  | none => ([params], .error (.nameError "j"))
  | some j =>
    match j.best_flights with
    | none => ([params], .error (.keyError "best_flights"))
    | some groups =>
      ([params], .ok (groups.foldl (fun rows g =>
        rows ++ (g.flights.getD []).map segmentRow) []))

/-- C10: the name `j` is bound nowhere in scope, so every invocation of
`flight_search_tool` that reaches result parsing raises `NameError` and the
tool can never return the flight list it declares. -/
theorem flight_tool_always_raises_name_error (query departure_id arrival_id
    outbound_date return_date : String)
    (search : FlightQuery → FlightSearchDict) :
    "j" ∉ flightScopeNames ∧
    (flight_search_tool query departure_id arrival_id outbound_date
      return_date search).2 = .error (.nameError "j") ∧
    ∀ rows, (flight_search_tool query departure_id arrival_id outbound_date
      return_date search).2 ≠ .ok rows := by
  refine ⟨by decide, rfl, ?_⟩
  intro rows h
  exact Except.noConfusion h

/-- Concrete run of C10: the flight tool raises `NameError` even when the
external search would return a well-formed result. -/
theorem flight_tool_always_raises_name_error_witness :
    (flight_search_tool "flights to Austin" "JFK" "AUS" "2026-03-01"
      "2026-03-08" (fun _ => ⟨some []⟩)).2 = .error (.nameError "j") :=
  (flight_tool_always_raises_name_error "flights to Austin" "JFK" "AUS"
    "2026-03-01" "2026-03-08" (fun _ => ⟨some []⟩)).2.1

/-- C7, evaluated at the failing input: the outbound flight-search request
ignores every caller-supplied value — two calls with different departure,
arrival and date arguments build identical params carrying the hard-coded
literals — and the invocation raises `NameError` instead of returning a
record list. -/
theorem flight_request_ignores_caller_arguments :
    flight_params "flights to Austin" "JFK" "LAX" "2026-03-01" "2026-03-08" =
      flight_params "other trip" "CDG" "SIN" "2026-05-01" "2026-05-09" ∧
    (flight_params "flights to Austin" "JFK" "LAX" "2026-03-01"
      "2026-03-08").departure_id = "PEK" ∧
    (flight_params "flights to Austin" "JFK" "LAX" "2026-03-01"
      "2026-03-08").arrival_id = "AUS" ∧
    (flight_params "flights to Austin" "JFK" "LAX" "2026-03-01"
      "2026-03-08").outbound_date = "2025-07-19" ∧
    (flight_params "flights to Austin" "JFK" "LAX" "2026-03-01"
      "2026-03-08").return_date = "2025-07-25" ∧
    (flight_search_tool "flights to Austin" "JFK" "LAX" "2026-03-01"
      "2026-03-08" (fun _ => ⟨some []⟩)).2 = .error (.nameError "j") :=
  ⟨rfl, rfl, rfl, rfl, rfl, rfl⟩

/-- A crewai `Task` as registered in `app.py`, reduced to the fields that
determine its capability binding: the Python variable it is bound to, the
tool its description text instructs the agent to call, the tools actually
bound via `tools=[...]`, and the agent. -/
structure TaskDescriptor where
  varName : String
  instructed_tool : String
  bound_tools : List String
  agent : String
  deriving DecidableEq, Repr

/-- `hotel_task` (`app.py`): its description instructs calling the Hotel
Search Tool with the four extracted fields; `tools=[hotel_search_tool]`. -/
def hotel_task : TaskDescriptor :=
  { varName := "hotel_task"
    instructed_tool := "Hotel Search Tool"
    bound_tools := ["hotel_search_tool"]
    agent := "hotel_agent" }

/-- `flight_task` (`app.py`): its description is a near-copy of the hotel
instructions — it also says to call the Hotel Search Tool with the hotel
fields — while `tools=[flight_search_tool]` binds the flight tool. -/
def flight_task : TaskDescriptor :=
  { varName := "flight_task"
    instructed_tool := "Hotel Search Tool"
    bound_tools := ["flight_search_tool"]
    agent := "flight_agent" }

/-- Two task descriptors overlap when their description texts instruct the
same tool. -/
def overlappingBinding (t1 t2 : TaskDescriptor) : Bool :=
  t1.instructed_tool == t2.instructed_tool

/-- The crew as constructed by `Crew(...)` in `app.py`: the agent and task
lists are stored as given.  No registration-time name or overlap check
exists anywhere in the repository, and no `DuplicateCapabilityError` class
is defined or raised. -/
structure CrewReg where
  agents : List String
  tasks : List TaskDescriptor
  deriving DecidableEq, Repr

/-- `hierarchical_crew` (`app.py`): built from the two overlapping tasks. -/
def hierarchical_crew : CrewReg :=
  { agents := ["hotel_agent", "flight_agent"]
    tasks := [hotel_task, flight_task] }

/-- C8, evaluated on the code: `hotel_task` and `flight_task` are
overlapping capability-to-handler bindings (both descriptions instruct the
Hotel Search Tool while they bind different tools), yet the crew
construction silently stores both — registration is never rejected. -/
theorem crew_accepts_overlapping_bindings :
    overlappingBinding hotel_task flight_task = true ∧
    hotel_task.bound_tools ≠ flight_task.bound_tools ∧
    hierarchical_crew.tasks = [hotel_task, flight_task] ∧
    hotel_task ∈ hierarchical_crew.tasks ∧
    flight_task ∈ hierarchical_crew.tasks := by
  refine ⟨rfl, by decide, rfl, ?_, ?_⟩
  · simp [hierarchical_crew]
  · simp [hierarchical_crew]

/-- A POST body as Flask's `request.get_json()` sees it: either not
parseable as a JSON object (`get_json` aborts the request with status 400)
or a JSON object, modelled by its key-value pairs. -/
inductive RequestBody
  | notJson
  | jsonObj (fields : List (String × String))
  deriving DecidableEq, Repr

/-- Dict lookup, first binding wins. -/
def lookupField : List (String × String) → String → Option String
  | [], _ => none
  | (k, v) :: rest, key => if k == key then some v else lookupField rest key

/-- The `/process` route of `app.py`.  `kickoff` is the external crew
collaborator (`hierarchical_crew.kickoff(...)` followed by `.raw`), which
may raise; `now` is `str(datetime.now())`.  Flask turns an unparseable body
into a 400 response and an uncaught exception — the `KeyError` from
`data["question"]` or anything escaping `kickoff` — into a 500 response;
every handled request returns the jsonified crew output with status 200. -/
def process (body : RequestBody) (kickoff : String → Except PyError String)
    (now : String) : Nat × Option String :=
  match body with
  | .notJson => (400, none)
  | .jsonObj fields =>
    match lookupField fields "question" with
    | none => (500, none)
    | some q =>
      match kickoff (q ++ "Note: For reference today is " ++ now) with
      | .error _ => (500, none)
      | .ok out => (200, some out)

/-- C9 counterexample: a well-formed JSON body that merely lacks the
`question` field is answered with status 500 — the uncaught `KeyError` —
not with a 4xx status. -/
theorem process_missing_question_yields_500 :
    (process (.jsonObj [("text", "hi")]) (fun q => .ok q) "2026-10-12").1
        = 500 ∧
    ¬(400 ≤ (process (.jsonObj [("text", "hi")]) (fun q => .ok q)
        "2026-10-12").1 ∧
      (process (.jsonObj [("text", "hi")]) (fun q => .ok q)
        "2026-10-12").1 < 500) := by
  decide

/-- C9 amended: the endpoint returns 200 for every handled request — both
success and clarification outputs — and 400 for a body that is not JSON,
but a JSON body missing the `question` field is answered 500 via the
uncaught `KeyError`, and an internal error escaping the crew call also
yields 500. -/
theorem process_status_codes (fields : List (String × String))
    (kickoff : String → Except PyError String) (now : String) :
    (∀ q out, lookupField fields "question" = some q →
      kickoff (q ++ "Note: For reference today is " ++ now) = .ok out →
      process (.jsonObj fields) kickoff now = (200, some out)) ∧
    process .notJson kickoff now = (400, none) ∧
    (lookupField fields "question" = none →
      (process (.jsonObj fields) kickoff now).1 = 500) ∧
    (∀ q e, lookupField fields "question" = some q →
      kickoff (q ++ "Note: For reference today is " ++ now) = .error e →
      (process (.jsonObj fields) kickoff now).1 = 500) := by
  refine ⟨?_, rfl, ?_, ?_⟩
  · intro q out hq hk
    simp [process, hq, hk]
  · intro hq
    simp [process, hq]
  · intro q e hq hk
    simp [process, hq, hk]

/-- Concrete run of the amended C9: a body with a `question` field whose
crew output is a clarification string is answered 200 with that output. -/
theorem process_status_codes_witness :
    process (.jsonObj [("question", "hotels in Berlin")])
      (fun _ => .ok "Missing information: check_in_date") "2026-10-12"
      = (200, some "Missing information: check_in_date") :=
  (process_status_codes [("question", "hotels in Berlin")]
    (fun _ => .ok "Missing information: check_in_date") "2026-10-12").1
    "hotels in Berlin" "Missing information: check_in_date" rfl rfl

end TravelSpec
